import Mathlib

/-!
# Verification of the glowenft NFT-minting program

Shallow embedding of the glowenft Solana program (src/lib.rs, src/errors.rs,
src/instructions.rs, src/processor.rs) and proofs about it.

Modelling conventions:
* A public key (`Pubkey`) is its 32-byte content, modelled as a `List Nat`.
* Byte strings (`&[u8]`, Rust `String` payloads) are `List Nat` (`Bytes`).
* `Pubkey::find_program_address` is a host-library hash-based search; it is
  modelled as an explicit function parameter `fpa : Fpa` threaded through the
  definitions, since the program only ever uses it as a deterministic oracle
  from (seed list, program id) to (address, bump byte).
* Cross-program invocations (`invoke` / `invoke_signed`) do not run the callee
  here; each pipeline returns the ordered list of external calls it issued
  (`ExternalCall`) together with `none` on success, or the calls issued before
  the failure together with `some` error. The construction of the invoked
  instruction (its parameters) is what is recorded.
* `Rent::from_account_info` is host-library deserialization of the rent sysvar
  account; the value it yields is passed in as the `rent : Nat → Nat`
  parameter (the `minimum_balance` function).
-/

set_option linter.unusedVariables false

/-- A byte string. -/
abbrev Bytes := List Nat

/-- A public key, 32 bytes (`solana_program::pubkey::Pubkey`). -/
abbrev Pubkey := Bytes

/-- The model of `Pubkey::find_program_address`: from an ordered seed list and
a deriving program id to an (address, bump byte) pair. -/
abbrev Fpa := List Bytes → Pubkey → Pubkey × Nat

/-- `spl_token::id()`: the byte content of
`TokenkegQfeZyiNwAJbNbGKPFXCWuBvf9Ss623VQ5DA`. -/
def splTokenId : Pubkey :=
  [6, 221, 246, 225, 215, 101, 161, 147, 217, 203, 225, 70, 206, 235, 121, 172,
   28, 180, 133, 237, 95, 91, 55, 145, 58, 140, 245, 133, 126, 255, 0, 169]

/-- `solana_program::system_program::id()`: the all-zero key
`11111111111111111111111111111111`. -/
def systemProgramId : Pubkey := List.replicate 32 0

/-- `solana_program::sysvar::rent::id()`: the byte content of
`SysvarRent111111111111111111111111111111111`. -/
def rentSysvarId : Pubkey :=
  [6, 167, 213, 23, 25, 44, 92, 81, 33, 140, 201, 76, 61, 74, 241, 127,
   88, 218, 238, 8, 155, 161, 253, 68, 227, 219, 217, 138, 0, 0, 0, 0]

/-- ASCII bytes of a literal, modelling Rust `b"..."` byte strings. -/
def ascii (s : String) : Bytes := s.toList.map Char.toNat

/-- `src/errors.rs`: the `GloweError` enum. -/
inductive GloweError
  | InvalidInstruction
  | NotRentExempt
  | AccountMismatch
deriving DecidableEq, Repr

/-- The discriminant used by `From<GloweError> for ProgramError`
(`from as u32`). -/
def GloweError.code : GloweError → Nat
  | .InvalidInstruction => 0
  | .NotRentExempt => 1
  | .AccountMismatch => 2

/-- The host error type, restricted to the variants this program produces
(`solana_program::program_error::ProgramError`). -/
inductive ProgramError
  | Custom (code : Nat)
  | MissingRequiredSignature
  | IllegalOwner
  | NotEnoughAccountKeys
deriving DecidableEq, Repr

/-- `impl From<GloweError> for ProgramError`. -/
def GloweError.toProgramError (e : GloweError) : ProgramError :=
  .Custom e.code

/-- `src/instructions.rs`: the `GloweInstruction` enum. Each variant carries
the NFT `name` and `url` strings, as their UTF-8 bytes. -/
inductive GloweInstruction
  | Mint (name url : Bytes)
  | Mint2 (name url : Bytes)
deriving DecidableEq, Repr

/-! ## Message codec (borsh wire format for `GloweInstruction`)

Borsh serializes this enum as a one-byte variant tag (0 = `Mint`,
1 = `Mint2`) followed by the fields in order; a `String` field is a
little-endian `u32` byte length followed by the bytes.
`try_from_slice` additionally requires the whole input to be consumed. -/

/-- Little-endian `u32` encoding of a length. -/
def u32le (n : Nat) : Bytes :=
  [n % 256, n / 256 % 256, n / 65536 % 256, n / 16777216 % 256]

/-- Borsh encoding of a string field: `u32` length prefix then the bytes. -/
def encodeString (s : Bytes) : Bytes := u32le s.length ++ s

/-- Borsh serialization of a `GloweInstruction`
(`BorshSerialize::try_to_vec`). -/
def encode : GloweInstruction → Bytes
  | .Mint name url => 0 :: (encodeString name ++ encodeString url)
  | .Mint2 name url => 1 :: (encodeString name ++ encodeString url)

/-- Read a little-endian `u32` from the front of the input; fails when fewer
than four bytes remain. -/
def readU32 : Bytes → Option (Nat × Bytes)
  | b0 :: b1 :: b2 :: b3 :: rest =>
    some (b0 + 256 * b1 + 65536 * b2 + 16777216 * b3, rest)
  | _ => none

/-- Read exactly `n` bytes from the front of the input; fails when fewer
remain. -/
def readBytes (n : Nat) (bs : Bytes) : Option (Bytes × Bytes) :=
  if n ≤ bs.length then some (bs.take n, bs.drop n) else none

/-- Read one borsh string field: length prefix then that many bytes. -/
def readString (bs : Bytes) : Option (Bytes × Bytes) :=
  match readU32 bs with
  | none => none
  | some (len, rest) => readBytes len rest

/-- Borsh deserialization of a `GloweInstruction`
(`GloweInstruction::try_from_slice`): variant tag, the two string fields, and
the requirement that no input bytes remain. -/
def decode (bs : Bytes) : Option GloweInstruction :=
  match bs with
  | [] => none
  | tag :: rest =>
    if tag = 0 then
      match readString rest with
      | none => none
      | some (name, r2) =>
        match readString r2 with
        | none => none
        | some (url, r3) =>
          if r3 = [] then some (.Mint name url) else none
    else if tag = 1 then
      match readString rest with
      | none => none
      | some (name, r2) =>
        match readString r2 with
        | none => none
        | some (url, r3) =>
          if r3 = [] then some (.Mint2 name url) else none
    else none

/-! ## Address derivation (`src/instructions.rs`) -/

/-- `derive_mint_account_seeds`: the ordered seed list for the mint PDA. -/
def derive_mint_account_seeds (program_id token_program_id payer : Pubkey)
    (nft_name : Bytes) : List Bytes :=
  [ascii "glowenft", nft_name, ascii "mint", program_id, token_program_id, payer]

/-- `derive_mint_account_internal`: `find_program_address` over the mint
seeds, under `program_id`. -/
def derive_mint_account_internal (fpa : Fpa)
    (program_id token_program_id payer : Pubkey) (nft_name : Bytes) :
    Pubkey × Nat :=
  fpa (derive_mint_account_seeds program_id token_program_id payer nft_name)
    program_id

/-- The placeholder deriving-program identity `Pubkey::new_from_array([42; 32])`
hard-coded in `get_mint_account` / `get_token_account`. -/
def placeholderProgramId : Pubkey := List.replicate 32 42

/-- `get_mint_account`: public mint-address lookup, using the placeholder
program identity and the SPL token id. -/
def get_mint_account (fpa : Fpa) (minter : Pubkey) (nft_name : Bytes) : Pubkey :=
  (derive_mint_account_internal fpa placeholderProgramId splTokenId minter
    nft_name).1

/-- `derive_token_account_seeds`: the ordered seed list for the
token-holding PDA. -/
def derive_token_account_seeds (program_id token_program_id payer : Pubkey)
    (nft_name : Bytes) (owner : Pubkey) : List Bytes :=
  [ascii "glowenft", nft_name, ascii "owner", program_id, token_program_id,
   payer, owner]

/-- `derive_token_account_internal`: `find_program_address` over the
token-holding seeds, under `program_id`. -/
def derive_token_account_internal (fpa : Fpa)
    (program_id token_program_id payer : Pubkey) (nft_name : Bytes)
    (owner : Pubkey) : Pubkey × Nat :=
  fpa (derive_token_account_seeds program_id token_program_id payer nft_name
    owner) program_id

/-- `get_token_account`: public token-holding-address lookup, using the
placeholder program identity and the SPL token id. -/
def get_token_account (fpa : Fpa) (owner minter : Pubkey) (nft_name : Bytes) :
    Pubkey :=
  (derive_token_account_internal fpa placeholderProgramId splTokenId minter
    nft_name owner).1

/-! ## Instruction builders (`src/instructions.rs`) -/

/-- `solana_program::instruction::AccountMeta`. -/
structure AccountMeta where
  pubkey : Pubkey
  is_signer : Bool
  is_writable : Bool
deriving DecidableEq, Repr

/-- `AccountMeta::new(pubkey, signer)`: writable. -/
def AccountMeta.new (pubkey : Pubkey) (signer : Bool) : AccountMeta :=
  ⟨pubkey, signer, true⟩

/-- `AccountMeta::new_readonly(pubkey, signer)`. -/
def AccountMeta.new_readonly (pubkey : Pubkey) (signer : Bool) : AccountMeta :=
  ⟨pubkey, signer, false⟩

/-- `solana_program::instruction::Instruction`. -/
structure Instruction where
  program_id : Pubkey
  accounts : List AccountMeta
  data : Bytes
deriving DecidableEq, Repr

/-- `instructions::mint`: builds a `Mint` call descriptor. The Rust function
returns `Result<Instruction, ProgramError>`; serialization failure panics
(`expect`) rather than returning the error branch, so the body always ends in
`Ok`. -/
def mint (fpa : Fpa) (program_id : Pubkey) (name url : Bytes)
    (payer owner : Pubkey) : Except ProgramError Instruction :=
  let data := encode (.Mint name url)
  .ok
    { program_id := program_id
      accounts :=
        [AccountMeta.new payer true,
         AccountMeta.new_readonly owner false,
         AccountMeta.new (get_mint_account fpa payer name) false,
         AccountMeta.new (get_token_account fpa owner payer name) false,
         AccountMeta.new_readonly splTokenId false,
         AccountMeta.new_readonly systemProgramId false,
         AccountMeta.new_readonly rentSysvarId false]
      data := data }

/-- `instructions::mint2`: builds a `Mint2` call descriptor with
caller-supplied mint and token-holder addresses (6 accounts, no system
program). -/
def mint2 (program_id : Pubkey) (name url : Bytes)
    (payer owner mintAcc token_holder : Pubkey) : Except ProgramError Instruction :=
  let data := encode (.Mint2 name url)
  .ok
    { program_id := program_id
      accounts :=
        [AccountMeta.new payer true,
         AccountMeta.new_readonly owner false,
         AccountMeta.new mintAcc false,
         AccountMeta.new token_holder false,
         AccountMeta.new_readonly splTokenId false,
         AccountMeta.new_readonly rentSysvarId false]
      data := data }

/-! ## Processor (`src/processor.rs`) -/

/-- The fields of `solana_program::account_info::AccountInfo` this program
reads: the address, the signer flag, and the owning program. -/
structure AccountInfo where
  key : Pubkey
  is_signer : Bool
  owner : Pubkey
deriving DecidableEq, Repr

/-- `spl_token::instruction::AuthorityType` (only `MintTokens` is used). -/
inductive AuthorityType
  | MintTokens
deriving DecidableEq, Repr

/-- One cross-program invocation issued by the processor, recording the
constructed instruction's parameters. `createAccount` also records the PDA
seed groups passed to `invoke_signed`; `mintTo` / `setAuthority` record the
signer-pubkey slice of the spl-token builder and the seed groups of
`invoke_signed` (empty for a plain `invoke`). -/
inductive ExternalCall
  | createAccount (from_key to_key : Pubkey) (lamports space : Nat)
      (owner_prog : Pubkey) (signerSeeds : List (List Bytes))
  | initializeMint (token_prog mintAddr authority : Pubkey)
      (freeze : Option Pubkey) (decimals : Nat)
  | initializeAccount (token_prog account mintAddr owner : Pubkey)
  | mintTo (token_prog mintAddr dest authority : Pubkey)
      (signer_pubkeys : List Pubkey) (amount : Nat)
      (signerSeeds : List (List Bytes))
  | setAuthority (token_prog target : Pubkey) (new_authority : Option Pubkey)
      (authority_type : AuthorityType) (current : Pubkey)
      (signer_pubkeys : List Pubkey) (signerSeeds : List (List Bytes))
deriving DecidableEq, Repr

/-- `spl_token::state::Mint::LEN`. -/
def mintLEN : Nat := 82

/-- `spl_token::state::Account::LEN`. -/
def accountLEN : Nat := 165

/-- `Processor::process_mint`: the `Mint` pipeline. Accounts are consumed in
order by `next_account_info` (fails with `NotEnoughAccountKeys` when the
iterator is exhausted): minter, owner, mint account, token account, token
program, system program, rent sysvar. On success it returns the six external
calls in issue order; on failure, the calls issued before the failure and the
error. -/
def process_mint (fpa : Fpa) (accounts : List AccountInfo) (name url : Bytes)
    (program_id : Pubkey) (rent : Nat → Nat) :
    List ExternalCall × Option ProgramError :=
  match accounts with
  | [] => ([], some .NotEnoughAccountKeys)
  | minter :: r1 =>
    if !minter.is_signer then ([], some .MissingRequiredSignature)
    else match r1 with
    | [] => ([], some .NotEnoughAccountKeys)
    | owner :: r2 =>
      match r2 with
      | [] => ([], some .NotEnoughAccountKeys)
      | mint_account_info :: r3 =>
        match r3 with
        | [] => ([], some .NotEnoughAccountKeys)
        | token_account_info :: r4 =>
          match r4 with
          | [] => ([], some .NotEnoughAccountKeys)
          | token_program :: r5 =>
            if token_program.key ≠ splTokenId then
              ([], some GloweError.AccountMismatch.toProgramError)
            else match r5 with
            | [] => ([], some .NotEnoughAccountKeys)
            | system_program :: r6 =>
              if system_program.key ≠ systemProgramId then
                ([], some GloweError.AccountMismatch.toProgramError)
              else
                let mintD := derive_mint_account_internal fpa program_id
                  token_program.key minter.key name
                if mintD.1 ≠ mint_account_info.key then
                  ([], some GloweError.AccountMismatch.toProgramError)
                else
                  let tokD := derive_token_account_internal fpa program_id
                    token_program.key minter.key name owner.key
                  if tokD.1 ≠ token_account_info.key then
                    ([], some GloweError.AccountMismatch.toProgramError)
                  else
                    let mint_seeds := derive_mint_account_seeds program_id
                      token_program.key minter.key name ++ [[mintD.2]]
                    let token_account_seeds := derive_token_account_seeds
                      program_id token_program.key minter.key name owner.key
                      ++ [[tokD.2]]
                    match r6 with
                    | [] => ([], some .NotEnoughAccountKeys)
                    | rent_account :: _ =>
                      ([.createAccount minter.key mintD.1 (rent mintLEN)
                          mintLEN token_program.key [mint_seeds],
                        .createAccount minter.key tokD.1 (rent accountLEN)
                          accountLEN token_program.key [token_account_seeds],
                        .initializeMint token_program.key mintD.1 mintD.1
                          none 0,
                        .initializeAccount token_program.key tokD.1 mintD.1
                          owner.key,
                        .mintTo token_program.key mintD.1 tokD.1 mintD.1
                          [mintD.1] 1 [mint_seeds],
                        .setAuthority token_program.key mintD.1 none
                          .MintTokens mintD.1 [mintD.1] [mint_seeds]],
                       none)

/-- `Processor::process_mint2`: the `Mint2` pipeline. Accounts consumed in
order: minter, receiver, mint, token account, token program, rent sysvar.
The mint and token accounts must already be owned by the SPL token program. -/
def process_mint2 (accounts : List AccountInfo) (name url : Bytes)
    (program_id : Pubkey) : List ExternalCall × Option ProgramError :=
  match accounts with
  | [] => ([], some .NotEnoughAccountKeys)
  | minter :: r1 =>
    if !minter.is_signer then ([], some .MissingRequiredSignature)
    else match r1 with
    | [] => ([], some .NotEnoughAccountKeys)
    | receiver :: r2 =>
      match r2 with
      | [] => ([], some .NotEnoughAccountKeys)
      | mintAcc :: r3 =>
        match r3 with
        | [] => ([], some .NotEnoughAccountKeys)
        | token_account :: r4 =>
          match r4 with
          | [] => ([], some .NotEnoughAccountKeys)
          | token_program :: r5 =>
            if token_program.key ≠ splTokenId then
              ([], some GloweError.AccountMismatch.toProgramError)
            else if mintAcc.owner ≠ token_program.key ∨
                token_account.owner ≠ token_program.key then
              ([], some .IllegalOwner)
            else match r5 with
            | [] => ([], some .NotEnoughAccountKeys)
            | rent_account :: _ =>
              ([.initializeMint token_program.key mintAcc.key minter.key
                  none 0,
                .initializeAccount token_program.key token_account.key
                  mintAcc.key receiver.key,
                .mintTo token_program.key mintAcc.key token_account.key
                  minter.key [minter.key] 1 [],
                .setAuthority token_program.key mintAcc.key none .MintTokens
                  minter.key [minter.key] []],
               none)

/-- `Processor::process`: decode the instruction data (failure becomes
`InvalidInstruction`) and dispatch to the matching pipeline. -/
def process (fpa : Fpa) (program_id : Pubkey) (accounts : List AccountInfo)
    (instruction_data : Bytes) (rent : Nat → Nat) :
    List ExternalCall × Option ProgramError :=
  match decode instruction_data with
  | none => ([], some GloweError.InvalidInstruction.toProgramError)
  | some (.Mint name url) => process_mint fpa accounts name url program_id rent
  | some (.Mint2 name url) => process_mint2 accounts name url program_id

/-! ## Validity and concrete test fixtures -/

/-- An Operation Request every Rust value of `GloweInstruction` satisfies on
the wire: each string's byte length fits the borsh `u32` length prefix. -/
def validRequest : GloweInstruction → Prop
  | .Mint name url => name.length < 4294967296 ∧ url.length < 4294967296
  | .Mint2 name url => name.length < 4294967296 ∧ url.length < 4294967296

instance : DecidablePred validRequest := fun r =>
  match r with
  | .Mint name url => inferInstanceAs (Decidable (_ ∧ _))
  | .Mint2 name url => inferInstanceAs (Decidable (_ ∧ _))

/-- A concrete derivation oracle used to evaluate the pipelines on closed
inputs: the derived address is the program id extended by the seed count. -/
def fpaTest : Fpa := fun seeds pid => (pid ++ [seeds.length], 255)

/-- A concrete rent schedule for closed evaluations. -/
def rentTest : Nat → Nat := fun n => n

def wMinter : AccountInfo := ⟨[1], true, [0]⟩

def wOwner : AccountInfo := ⟨[2], false, [0]⟩

def wTokenProg : AccountInfo := ⟨splTokenId, false, [0]⟩

def wSysProg : AccountInfo := ⟨systemProgramId, false, [0]⟩

def wRentAcct : AccountInfo := ⟨rentSysvarId, false, [0]⟩

def wPid : Pubkey := [9]

def wName : Bytes := [110]

def wUrl : Bytes := [117]

/-- A mint account whose key is the correctly derived mint PDA under
`fpaTest`. -/
def wMintAcct : AccountInfo :=
  ⟨(derive_mint_account_internal fpaTest wPid splTokenId wMinter.key wName).1,
   false, splTokenId⟩

/-- A token-holding account whose key is the correctly derived token PDA
under `fpaTest`. -/
def wTokAcct : AccountInfo :=
  ⟨(derive_token_account_internal fpaTest wPid splTokenId wMinter.key wName
      wOwner.key).1, false, splTokenId⟩

/-- An account with an unrelated key and owner. -/
def wBadAcct : AccountInfo := ⟨[7], false, [0]⟩

/-! ## Codec lemmas -/

theorem readU32_u32le (n : Nat) (rest : Bytes) (h : n < 4294967296) :
    readU32 (u32le n ++ rest) = some (n, rest) := by
  have key : n % 256 + 256 * (n / 256 % 256) + 65536 * (n / 65536 % 256)
      + 16777216 * (n / 16777216 % 256) = n := by omega
  simp [u32le, readU32, key]

theorem readString_encodeString (s rest : Bytes) (h : s.length < 4294967296) :
    readString (encodeString s ++ rest) = some (s, rest) := by
  rw [encodeString, List.append_assoc, readString, readU32_u32le _ _ h]
  simp [readBytes, List.take_left, List.drop_left]

theorem readU32_eq_none (bs : Bytes) (h : bs.length < 4) :
    readU32 bs = none := by
  match bs, h with
  | [], _ => rfl
  | [a], _ => rfl
  | [a, b], _ => rfl
  | [a, b, c], _ => rfl
  | a :: b :: c :: d :: rest, h => exact absurd h (by simp)

theorem readString_none_of_u32_none (bs : Bytes) (h : readU32 bs = none) :
    readString bs = none := by
  rw [readString, h]

/-- Reading a length-prefixed string from a proper prefix of well-formed
input either fails, or yields the same string with a strictly truncated
remainder. -/
theorem readString_take (s rest : Bytes) (hs : s.length < 4294967296)
    (j : Nat) (hj : j < (encodeString s ++ rest).length) :
    readString ((encodeString s ++ rest).take j) = none ∨
    ∃ j', j' < rest.length ∧
      readString ((encodeString s ++ rest).take j) = some (s, rest.take j') := by
  rw [encodeString, List.append_assoc]
  rw [encodeString, List.append_assoc, List.length_append,
    List.length_append] at hj
  have hlen4 : (u32le s.length).length = 4 := rfl
  rw [hlen4] at hj
  by_cases h4 : j < 4
  · left
    apply readString_none_of_u32_none
    apply readU32_eq_none
    rw [List.length_take]
    omega
  · push_neg at h4
    have htk : (u32le s.length ++ (s ++ rest)).take j
        = u32le s.length ++ (s ++ rest).take (j - 4) := by
      rw [List.take_append_eq_append_take, hlen4,
        List.take_of_length_le (by rw [hlen4]; omega)]
    have hrs : readString (u32le s.length ++ (s ++ rest).take (j - 4))
        = readBytes s.length ((s ++ rest).take (j - 4)) := by
      rw [readString, readU32_u32le _ _ hs]
    rw [htk, hrs, readBytes]
    by_cases hL : s.length ≤ ((s ++ rest).take (j - 4)).length
    · rw [if_pos hL]
      rw [List.length_take, List.length_append] at hL
      right
      refine ⟨j - 4 - s.length, ?_, ?_⟩
      · omega
      · have ht1 : ((s ++ rest).take (j - 4)).take s.length = s := by
          rw [List.take_take]
          have : min s.length (j - 4) = s.length := by omega
          rw [this, List.take_left]
        have ht2 : ((s ++ rest).take (j - 4)).drop s.length
            = rest.take (j - 4 - s.length) := by
          rw [List.drop_take, List.drop_left]
        rw [ht1, ht2]
    · rw [if_neg hL]
      left
      rfl

/-- Decoding any proper prefix of a well-formed encoding fails. -/
theorem decode_take_encode (r : GloweInstruction) (h : validRequest r)
    (k : Nat) (hk : k < (encode r).length) :
    decode ((encode r).take k) = none := by
  cases r with
  | Mint name url =>
    obtain ⟨hn, hu⟩ := h
    match k with
    | 0 => rfl
    | k + 1 =>
      rw [encode, List.take_succ_cons]
      rw [encode, List.length_cons] at hk
      have hk' : k < (encodeString name ++ encodeString url).length := by
        omega
      rcases readString_take name (encodeString url) hn k hk'
        with h1 | ⟨j', hj', h1⟩
      · simp [decode, h1]
      · rcases readString_take url [] hu j'
          (by rw [List.append_nil]; exact hj') with h2 | ⟨j'', hj'', h2⟩
        · rw [List.append_nil] at h2
          simp [decode, h1, h2]
        · simp at hj''
  | Mint2 name url =>
    obtain ⟨hn, hu⟩ := h
    match k with
    | 0 => rfl
    | k + 1 =>
      rw [encode, List.take_succ_cons]
      rw [encode, List.length_cons] at hk
      have hk' : k < (encodeString name ++ encodeString url).length := by
        omega
      rcases readString_take name (encodeString url) hn k hk'
        with h1 | ⟨j', hj', h1⟩
      · simp [decode, h1]
      · rcases readString_take url [] hu j'
          (by rw [List.append_nil]; exact hj') with h2 | ⟨j'', hj'', h2⟩
        · rw [List.append_nil] at h2
          simp [decode, h1, h2]
        · simp at hj''

/-! ## Claim theorems -/

/-- C1: in the `Mint` pipeline, once the payer signature and the
token-program / system-program identity checks have passed, if the supplied
mint-account address differs from the PDA re-derived from (program id,
token-program id, payer id, name), or the supplied token-holding-account
address differs from the PDA re-derived from (program id, token-program id,
payer id, name, owner id), then `process_mint` fails with `AccountMismatch`
and issues no external call — for any substituted addresses. -/
theorem process_mint_pda_mismatch (fpa : Fpa) (program_id : Pubkey)
    (rent : Nat → Nat) (name url : Bytes)
    (minter owner mintA tokA tp sp : AccountInfo) (rest : List AccountInfo)
    (hsig : minter.is_signer = true)
    (htp : tp.key = splTokenId)
    (hsp : sp.key = systemProgramId)
    (hmm : (derive_mint_account_internal fpa program_id splTokenId minter.key
        name).1 ≠ mintA.key
      ∨ (derive_token_account_internal fpa program_id splTokenId minter.key
        name owner.key).1 ≠ tokA.key) :
    process_mint fpa (minter :: owner :: mintA :: tokA :: tp :: sp :: rest)
      name url program_id rent
      = ([], some GloweError.AccountMismatch.toProgramError) := by
  rcases hmm with h | h
  · simp [process_mint, hsig, htp, hsp, h]
  · by_cases h1 : (derive_mint_account_internal fpa program_id splTokenId
      minter.key name).1 = mintA.key
    · simp [process_mint, hsig, htp, hsp, h1, h]
    · simp [process_mint, hsig, htp, hsp, h1]

/-- C1 witness: concrete evaluation of the mismatch failure, with the
supplied mint account replaced by an unrelated address. -/
theorem process_mint_pda_mismatch_witness :
    wMinter.is_signer = true ∧ wTokenProg.key = splTokenId
    ∧ wSysProg.key = systemProgramId
    ∧ ((derive_mint_account_internal fpaTest wPid splTokenId wMinter.key
        wName).1 ≠ wBadAcct.key
      ∨ (derive_token_account_internal fpaTest wPid splTokenId wMinter.key
        wName wOwner.key).1 ≠ wTokAcct.key)
    ∧ process_mint fpaTest
        [wMinter, wOwner, wBadAcct, wTokAcct, wTokenProg, wSysProg, wRentAcct]
        wName wUrl wPid rentTest
      = ([], some GloweError.AccountMismatch.toProgramError) :=
  ⟨rfl, rfl, rfl, Or.inl (by decide),
   process_mint_pda_mismatch fpaTest wPid rentTest wName wUrl wMinter wOwner
     wBadAcct wTokAcct wTokenProg wSysProg [wRentAcct] rfl rfl rfl
     (Or.inl (by decide))⟩

/-- C2: when every check of the `Mint` pipeline passes, `process_mint`
succeeds and issues exactly six external calls in this fixed order: create
the mint account (sized `Mint::LEN`, funded to its rent-exempt minimum,
owned by the token program), create the token-holding account (sized
`Account::LEN`), initialize the mint with zero decimals and minting
authority the mint PDA itself (freeze authority `none`), initialize the
token-holding account bound to the mint with owner the supplied owner, mint
exactly one unit into the token-holding account, and clear the minting
authority (set to `none`). -/
theorem process_mint_call_sequence (fpa : Fpa) (program_id : Pubkey)
    (rent : Nat → Nat) (name url : Bytes)
    (minter owner mintA tokA tp sp rentA : AccountInfo)
    (rest : List AccountInfo)
    (hsig : minter.is_signer = true)
    (htp : tp.key = splTokenId)
    (hsp : sp.key = systemProgramId)
    (hmint : mintA.key = (derive_mint_account_internal fpa program_id
      splTokenId minter.key name).1)
    (htok : tokA.key = (derive_token_account_internal fpa program_id
      splTokenId minter.key name owner.key).1) :
    process_mint fpa
      (minter :: owner :: mintA :: tokA :: tp :: sp :: rentA :: rest)
      name url program_id rent
      = ([.createAccount minter.key
            (derive_mint_account_internal fpa program_id splTokenId minter.key
              name).1
            (rent mintLEN) mintLEN splTokenId
            [derive_mint_account_seeds program_id splTokenId minter.key name
              ++ [[(derive_mint_account_internal fpa program_id splTokenId
                minter.key name).2]]],
          .createAccount minter.key
            (derive_token_account_internal fpa program_id splTokenId
              minter.key name owner.key).1
            (rent accountLEN) accountLEN splTokenId
            [derive_token_account_seeds program_id splTokenId minter.key name
              owner.key
              ++ [[(derive_token_account_internal fpa program_id splTokenId
                minter.key name owner.key).2]]],
          .initializeMint splTokenId
            (derive_mint_account_internal fpa program_id splTokenId minter.key
              name).1
            (derive_mint_account_internal fpa program_id splTokenId minter.key
              name).1
            none 0,
          .initializeAccount splTokenId
            (derive_token_account_internal fpa program_id splTokenId
              minter.key name owner.key).1
            (derive_mint_account_internal fpa program_id splTokenId minter.key
              name).1
            owner.key,
          .mintTo splTokenId
            (derive_mint_account_internal fpa program_id splTokenId minter.key
              name).1
            (derive_token_account_internal fpa program_id splTokenId
              minter.key name owner.key).1
            (derive_mint_account_internal fpa program_id splTokenId minter.key
              name).1
            [(derive_mint_account_internal fpa program_id splTokenId
              minter.key name).1] 1
            [derive_mint_account_seeds program_id splTokenId minter.key name
              ++ [[(derive_mint_account_internal fpa program_id splTokenId
                minter.key name).2]]],
          .setAuthority splTokenId
            (derive_mint_account_internal fpa program_id splTokenId minter.key
              name).1
            none .MintTokens
            (derive_mint_account_internal fpa program_id splTokenId minter.key
              name).1
            [(derive_mint_account_internal fpa program_id splTokenId
              minter.key name).1]
            [derive_mint_account_seeds program_id splTokenId minter.key name
              ++ [[(derive_mint_account_internal fpa program_id splTokenId
                minter.key name).2]]]],
         none) := by
  simp [process_mint, hsig, htp, hsp, hmint, htok]

/-- C2 witness: concrete evaluation of the full successful pipeline under
the `fpaTest` oracle; the six calls, with all addresses computed. -/
theorem process_mint_call_sequence_witness :
    wMinter.is_signer = true ∧ wTokenProg.key = splTokenId
    ∧ wSysProg.key = systemProgramId
    ∧ wMintAcct.key = (derive_mint_account_internal fpaTest wPid splTokenId
      wMinter.key wName).1
    ∧ wTokAcct.key = (derive_token_account_internal fpaTest wPid splTokenId
      wMinter.key wName wOwner.key).1
    ∧ process_mint fpaTest
        [wMinter, wOwner, wMintAcct, wTokAcct, wTokenProg, wSysProg, wRentAcct]
        wName wUrl wPid rentTest
      = ([.createAccount [1] [9, 6] 82 82 splTokenId
            [[[103, 108, 111, 119, 101, 110, 102, 116], [110],
              [109, 105, 110, 116], [9], splTokenId, [1], [255]]],
          .createAccount [1] [9, 7] 165 165 splTokenId
            [[[103, 108, 111, 119, 101, 110, 102, 116], [110],
              [111, 119, 110, 101, 114], [9], splTokenId, [1], [2], [255]]],
          .initializeMint splTokenId [9, 6] [9, 6] none 0,
          .initializeAccount splTokenId [9, 7] [9, 6] [2],
          .mintTo splTokenId [9, 6] [9, 7] [9, 6] [[9, 6]] 1
            [[[103, 108, 111, 119, 101, 110, 102, 116], [110],
              [109, 105, 110, 116], [9], splTokenId, [1], [255]]],
          .setAuthority splTokenId [9, 6] none .MintTokens [9, 6] [[9, 6]]
            [[[103, 108, 111, 119, 101, 110, 102, 116], [110],
              [109, 105, 110, 116], [9], splTokenId, [1], [255]]]],
         none) :=
  ⟨rfl, rfl, rfl, rfl, rfl,
   process_mint_call_sequence fpaTest wPid rentTest wName wUrl wMinter wOwner
     wMintAcct wTokAcct wTokenProg wSysProg wRentAcct [] rfl rfl rfl rfl rfl⟩

/-- C3: round-trip law for the message codec — for every valid Operation
Request `r` (`Mint` or `Mint2`, any `name` / `url` whose byte lengths fit
the `u32` length prefix), decoding the encoding of `r` yields `r`. -/
theorem decode_encode_roundtrip (r : GloweInstruction) (h : validRequest r) :
    decode (encode r) = some r := by
  cases r with
  | Mint name url =>
    obtain ⟨hn, hu⟩ := h
    have h2 := readString_encodeString url [] hu
    rw [List.append_nil] at h2
    simp [encode, decode, readString_encodeString name (encodeString url) hn,
      h2]
  | Mint2 name url =>
    obtain ⟨hn, hu⟩ := h
    have h2 := readString_encodeString url [] hu
    rw [List.append_nil] at h2
    simp [encode, decode, readString_encodeString name (encodeString url) hn,
      h2]

/-- C3 witness: the round trip evaluated on a concrete request. -/
theorem decode_encode_roundtrip_witness :
    validRequest (.Mint [110] [117])
    ∧ decode (encode (.Mint [110] [117])) = some (.Mint [110] [117]) :=
  ⟨by decide, decode_encode_roundtrip (.Mint [110] [117]) (by decide)⟩

/-- C4: decoding fails — and `Processor::process` then fails with
`InvalidInstruction` — on every truncated byte string (any proper prefix of
a valid encoding), on any tag byte ≥ 2, and on malformed string length
prefixes (a length-prefixed string field of either the name or the url that
cannot be read, i.e. a short prefix or a declared length exceeding the
remaining bytes); any input rejected by `decode` makes `process` fail with
`InvalidInstruction`. -/
theorem decode_invalid_inputs :
    (∀ r k, validRequest r → k < (encode r).length →
      decode ((encode r).take k) = none)
    ∧ (∀ tag rest, 2 ≤ tag → decode (tag :: rest) = none)
    ∧ (∀ tag rest, tag < 2 → readString rest = none →
      decode (tag :: rest) = none)
    ∧ (∀ tag rest name r2, tag < 2 → readString rest = some (name, r2) →
      readString r2 = none → decode (tag :: rest) = none)
    ∧ (∀ fpa program_id accounts rent data, decode data = none →
      process fpa program_id accounts data rent
        = ([], some GloweError.InvalidInstruction.toProgramError)) := by
  refine ⟨fun r k h hk => decode_take_encode r h k hk, ?_, ?_, ?_, ?_⟩
  · intro tag rest h2
    have h0 : ¬tag = 0 := by omega
    have h1 : ¬tag = 1 := by omega
    simp [decode, h0, h1]
  · intro tag rest hlt hrs
    match tag, hlt with
    | 0, _ => simp [decode, hrs]
    | 1, _ => simp [decode, hrs]
  · intro tag rest name r2 hlt hrs1 hrs2
    match tag, hlt with
    | 0, _ => simp [decode, hrs1, hrs2]
    | 1, _ => simp [decode, hrs1, hrs2]
  · intro fpa pid accounts rent data hd
    rw [process, hd]

/-- C4 witness: a truncated encoding, an unknown tag, and the resulting
`InvalidInstruction` failure of `process`, all on concrete inputs. -/
theorem decode_invalid_inputs_witness :
    validRequest (.Mint [110] [117])
    ∧ 3 < (encode (.Mint [110] [117])).length
    ∧ decode ((encode (.Mint [110] [117])).take 3) = none
    ∧ 2 ≤ 2 ∧ decode (2 :: ([] : Bytes)) = none
    ∧ decode [5] = none
    ∧ process fpaTest wPid [] [5] rentTest
      = ([], some GloweError.InvalidInstruction.toProgramError) :=
  ⟨by decide, by decide,
   decode_invalid_inputs.1 (.Mint [110] [117]) 3 (by decide) (by decide),
   by decide, decode_invalid_inputs.2.1 2 [] (by decide),
   rfl, decode_invalid_inputs.2.2.2.2 fpaTest wPid [] rentTest [5] rfl⟩

/-- C5: in the `Mint2` pipeline, once the payer signature and token-program
identity checks pass, if the supplied mint account or the supplied
token-holding account is not owned by the SPL token program, `process_mint2`
fails with `IllegalOwner` having issued no external call (in particular, no
initialization call). -/
theorem process_mint2_illegal_owner (name url : Bytes) (program_id : Pubkey)
    (minter receiver mintA tokA tp : AccountInfo) (rest : List AccountInfo)
    (hsig : minter.is_signer = true)
    (htp : tp.key = splTokenId)
    (hown : mintA.owner ≠ splTokenId ∨ tokA.owner ≠ splTokenId) :
    process_mint2 (minter :: receiver :: mintA :: tokA :: tp :: rest)
      name url program_id
      = ([], some ProgramError.IllegalOwner) := by
  simp only [process_mint2, hsig, htp]
  simp [hown]

/-- C5 witness: concrete evaluation with a mint account owned by an
unrelated program. -/
theorem process_mint2_illegal_owner_witness :
    wMinter.is_signer = true ∧ wTokenProg.key = splTokenId
    ∧ (wBadAcct.owner ≠ splTokenId ∨ wTokAcct.owner ≠ splTokenId)
    ∧ process_mint2 [wMinter, wOwner, wBadAcct, wTokAcct, wTokenProg]
        wName wUrl wPid
      = ([], some ProgramError.IllegalOwner) :=
  ⟨rfl, rfl, Or.inl (by decide),
   process_mint2_illegal_owner wName wUrl wPid wMinter wOwner wBadAcct
     wTokAcct wTokenProg [] rfl rfl (Or.inl (by decide))⟩

/-- C6: the mint-address derivation uses exactly the ordered seed list
["glowenft", name, "mint", program id, token-program id, payer id] and the
token-holding-address derivation exactly ["glowenft", name, "owner",
program id, token-program id, payer id, owner id]; the `internal` derivation
functions pass exactly these seed lists (and the program id) to
`find_program_address`. -/
theorem derivation_seed_lists (fpa : Fpa)
    (program_id token_program_id payer owner : Pubkey) (nft_name : Bytes) :
    derive_mint_account_seeds program_id token_program_id payer nft_name
      = [[103, 108, 111, 119, 101, 110, 102, 116], nft_name,
         [109, 105, 110, 116], program_id, token_program_id, payer]
    ∧ derive_token_account_seeds program_id token_program_id payer nft_name
        owner
      = [[103, 108, 111, 119, 101, 110, 102, 116], nft_name,
         [111, 119, 110, 101, 114], program_id, token_program_id, payer,
         owner]
    ∧ derive_mint_account_internal fpa program_id token_program_id payer
        nft_name
      = fpa [[103, 108, 111, 119, 101, 110, 102, 116], nft_name,
             [109, 105, 110, 116], program_id, token_program_id, payer]
          program_id
    ∧ derive_token_account_internal fpa program_id token_program_id payer
        nft_name owner
      = fpa [[103, 108, 111, 119, 101, 110, 102, 116], nft_name,
             [111, 119, 110, 101, 114], program_id, token_program_id, payer,
             owner]
          program_id :=
  ⟨rfl, rfl, rfl, rfl⟩

/-- C7: `get_mint_account` and `get_token_account` derive with the fixed
placeholder constant (32 bytes of value 42) as the deriving-program identity
and with the SPL token program id; consequently the account list the `mint`
builder assembles (which embeds those lookups) is the same whatever
`program_id` the caller passes. -/
theorem lookup_uses_placeholder_program_id (fpa : Fpa)
    (minter owner payer : Pubkey) (nft_name name url : Bytes)
    (pid pid' : Pubkey) :
    get_mint_account fpa minter nft_name
      = (fpa (derive_mint_account_seeds placeholderProgramId splTokenId
          minter nft_name) placeholderProgramId).1
    ∧ get_token_account fpa owner minter nft_name
      = (fpa (derive_token_account_seeds placeholderProgramId splTokenId
          minter nft_name owner) placeholderProgramId).1
    ∧ placeholderProgramId = List.replicate 32 42
    ∧ Except.map Instruction.accounts (mint fpa pid name url payer owner)
      = Except.map Instruction.accounts (mint fpa pid' name url payer owner) :=
  ⟨rfl, rfl, rfl, rfl⟩

/-- C8: the `mint` builder always returns (it has no error branch; a
serialization failure would abort, not return `Err`) the descriptor with
exactly seven account references in the fixed order payer (signer,
writable), owner (read-only, non-signer), mint address (writable),
token-holding address (writable), token program (read-only), system program
(read-only), rent sysvar (read-only), and a borsh-encoded `Mint{name,url}`
body. -/
theorem mint_builder_descriptor (fpa : Fpa) (program_id : Pubkey)
    (name url : Bytes) (payer owner : Pubkey) :
    mint fpa program_id name url payer owner
      = Except.ok
          { program_id := program_id
            accounts :=
              [⟨payer, true, true⟩, ⟨owner, false, false⟩,
               ⟨get_mint_account fpa payer name, false, true⟩,
               ⟨get_token_account fpa owner payer name, false, true⟩,
               ⟨splTokenId, false, false⟩, ⟨systemProgramId, false, false⟩,
               ⟨rentSysvarId, false, false⟩]
            data := encode (.Mint name url) } :=
  rfl

/-- C9: the `url` string never influences either pipeline — two invocations
of `process_mint` (or `process_mint2`) that agree on everything but `url`
produce the same result and the same sequence of external calls. -/
theorem url_not_used (fpa : Fpa) (accounts : List AccountInfo)
    (name url url' : Bytes) (program_id : Pubkey) (rent : Nat → Nat) :
    process_mint fpa accounts name url program_id rent
      = process_mint fpa accounts name url' program_id rent
    ∧ process_mint2 accounts name url program_id
      = process_mint2 accounts name url' program_id :=
  ⟨rfl, rfl⟩

/-- C10: with fewer accounts than the pipeline consumes (7 for
`process_mint`, 6 for `process_mint2`), and the checks preceding the first
missing account passing, the pipeline fails with the host's
`NotEnoughAccountKeys` when that first missing account is requested, having
issued no external call. Each conjunct is one deficit length, with exactly
the hypotheses of the checks executed before the missing request. -/
theorem missing_accounts_fail :
    (∀ fpa name url program_id rent,
      process_mint fpa [] name url program_id rent
        = ([], some ProgramError.NotEnoughAccountKeys))
    ∧ (∀ fpa name url program_id rent a1, a1.is_signer = true →
      process_mint fpa [a1] name url program_id rent
        = ([], some ProgramError.NotEnoughAccountKeys))
    ∧ (∀ fpa name url program_id rent a1 a2, a1.is_signer = true →
      process_mint fpa [a1, a2] name url program_id rent
        = ([], some ProgramError.NotEnoughAccountKeys))
    ∧ (∀ fpa name url program_id rent a1 a2 a3, a1.is_signer = true →
      process_mint fpa [a1, a2, a3] name url program_id rent
        = ([], some ProgramError.NotEnoughAccountKeys))
    ∧ (∀ fpa name url program_id rent a1 a2 a3 a4, a1.is_signer = true →
      process_mint fpa [a1, a2, a3, a4] name url program_id rent
        = ([], some ProgramError.NotEnoughAccountKeys))
    ∧ (∀ fpa name url program_id rent a1 a2 a3 a4 a5, a1.is_signer = true →
      a5.key = splTokenId →
      process_mint fpa [a1, a2, a3, a4, a5] name url program_id rent
        = ([], some ProgramError.NotEnoughAccountKeys))
    ∧ (∀ fpa name url program_id rent a1 a2 a3 a4 a5 a6,
      a1.is_signer = true → a5.key = splTokenId →
      a6.key = systemProgramId →
      a3.key = (derive_mint_account_internal fpa program_id splTokenId a1.key
        name).1 →
      a4.key = (derive_token_account_internal fpa program_id splTokenId a1.key
        name a2.key).1 →
      process_mint fpa [a1, a2, a3, a4, a5, a6] name url program_id rent
        = ([], some ProgramError.NotEnoughAccountKeys))
    ∧ (∀ name url program_id,
      process_mint2 [] name url program_id
        = ([], some ProgramError.NotEnoughAccountKeys))
    ∧ (∀ name url program_id a1, a1.is_signer = true →
      process_mint2 [a1] name url program_id
        = ([], some ProgramError.NotEnoughAccountKeys))
    ∧ (∀ name url program_id a1 a2, a1.is_signer = true →
      process_mint2 [a1, a2] name url program_id
        = ([], some ProgramError.NotEnoughAccountKeys))
    ∧ (∀ name url program_id a1 a2 a3, a1.is_signer = true →
      process_mint2 [a1, a2, a3] name url program_id
        = ([], some ProgramError.NotEnoughAccountKeys))
    ∧ (∀ name url program_id a1 a2 a3 a4, a1.is_signer = true →
      process_mint2 [a1, a2, a3, a4] name url program_id
        = ([], some ProgramError.NotEnoughAccountKeys))
    ∧ (∀ name url program_id a1 a2 a3 a4 a5, a1.is_signer = true →
      a5.key = splTokenId → a3.owner = splTokenId → a4.owner = splTokenId →
      process_mint2 [a1, a2, a3, a4, a5] name url program_id
        = ([], some ProgramError.NotEnoughAccountKeys)) := by
  refine ⟨?_, ?_, ?_, ?_, ?_, ?_, ?_, ?_, ?_, ?_, ?_, ?_, ?_⟩
  · intro fpa name url pid rent
    rfl
  · intro fpa name url pid rent a1 h1
    simp [process_mint, h1]
  · intro fpa name url pid rent a1 a2 h1
    simp [process_mint, h1]
  · intro fpa name url pid rent a1 a2 a3 h1
    simp [process_mint, h1]
  · intro fpa name url pid rent a1 a2 a3 a4 h1
    simp [process_mint, h1]
  · intro fpa name url pid rent a1 a2 a3 a4 a5 h1 h5
    simp [process_mint, h1, h5]
  · intro fpa name url pid rent a1 a2 a3 a4 a5 a6 h1 h5 h6 h3 h4
    simp [process_mint, h1, h5, h6, h3, h4]
  · intro name url pid
    rfl
  · intro name url pid a1 h1
    simp [process_mint2, h1]
  · intro name url pid a1 a2 h1
    simp [process_mint2, h1]
  · intro name url pid a1 a2 a3 h1
    simp [process_mint2, h1]
  · intro name url pid a1 a2 a3 a4 h1
    simp [process_mint2, h1]
  · intro name url pid a1 a2 a3 a4 a5 h1 h5 h3 h4
    simp [process_mint2, h1, h5, h3, h4]

/-- C10 witness: a 6-account `Mint` call list (rent sysvar missing) and a
5-account `Mint2` call list (rent sysvar missing), both failing with
`NotEnoughAccountKeys` and no external calls, on concrete accounts. -/
theorem missing_accounts_fail_witness :
    wMinter.is_signer = true ∧ wTokenProg.key = splTokenId
    ∧ wSysProg.key = systemProgramId
    ∧ wMintAcct.key = (derive_mint_account_internal fpaTest wPid splTokenId
      wMinter.key wName).1
    ∧ wTokAcct.key = (derive_token_account_internal fpaTest wPid splTokenId
      wMinter.key wName wOwner.key).1
    ∧ process_mint fpaTest
        [wMinter, wOwner, wMintAcct, wTokAcct, wTokenProg, wSysProg]
        wName wUrl wPid rentTest
      = ([], some ProgramError.NotEnoughAccountKeys)
    ∧ wMintAcct.owner = splTokenId ∧ wTokAcct.owner = splTokenId
    ∧ process_mint2 [wMinter, wOwner, wMintAcct, wTokAcct, wTokenProg]
        wName wUrl wPid
      = ([], some ProgramError.NotEnoughAccountKeys) :=
  ⟨rfl, rfl, rfl, rfl, rfl,
   missing_accounts_fail.2.2.2.2.2.2.1 fpaTest wName wUrl wPid rentTest
     wMinter wOwner wMintAcct wTokAcct wTokenProg wSysProg rfl rfl rfl rfl
     rfl,
   rfl, rfl,
   missing_accounts_fail.2.2.2.2.2.2.2.2.2.2.2.2 wName wUrl wPid wMinter
     wOwner wMintAcct wTokAcct wTokenProg rfl rfl rfl rfl⟩
